import Mathlib

/-!
Verification of the web-search tool handler `Assistant.search_web` in
`src/agent.py`. The handler reads the environment variable TAVILY_API_KEY
(a missing key raises KeyError), performs a single Tavily search at depth
"advanced", prints the response, then reads TAVILY_SEARCH_DELAY; when that
variable is set to a non-empty string it converts it with the Python
function int (raising ValueError when unparseable) and sleeps for that many
seconds, finally returning the raw search response.

The embedding treats one invocation as a pure function of a world record
holding the process environment and the search client behavior, returning
the ordered trace of observable effects together with either the returned
value or the exception propagated.
-/

/-- A Python runtime value, restricted to the shapes the handler touches:
strings and dictionaries with string keys. -/
inductive PyValue where
  | str (s : String)
  | dict (entries : List (String × PyValue))

/-- A failure raised by the Tavily search client: network, authentication,
or quota error, carried opaque through the handler. -/
inductive SearchFailure where
  | network (msg : String)
  | auth (msg : String)
  | quota (msg : String)
  deriving DecidableEq

/-- An exception as raised by the Python code of the handler: KeyError from
the environment lookup, ValueError from int conversion of the delay
setting, or a search-client failure propagated unmodified. -/
inductive PyError where
  | keyError (key : String)
  | valueError (arg : String)
  | searchError (e : SearchFailure)
  deriving DecidableEq

/-- One observable side effect of an invocation of the handler. -/
inductive Event where
  | searchRequest (apiKey query depth : String)
  | printOut (v : PyValue)
  | sleep (seconds : Int)

/-- Whitespace stripped by the Python function int before conversion
(the ASCII whitespace characters). -/
def isPySpace (c : Char) : Bool :=
  c = ' ' || c = '\t' || c = '\n' || c = '\r' || c.toNat = 11 || c.toNat = 12

/-- Value of the digit run of a Python integer literal after its first
digit: further digits optionally separated by single underscores, as the
Python function int accepts. -/
def pyDigitsCore : List Char → Nat → Option Nat
  | [], acc => some acc
  | '_' :: c :: cs, acc =>
      if c.isDigit then pyDigitsCore cs (acc * 10 + (c.toNat - 48)) else none
  | c :: cs, acc =>
      if c.isDigit then pyDigitsCore cs (acc * 10 + (c.toNat - 48)) else none

/-- Value of an unsigned digit run as the Python function int accepts it:
non-empty, starting and ending with a digit, single underscores allowed
between digits. -/
def pyDigits : List Char → Option Nat
  | [] => none
  | c :: cs => if c.isDigit then pyDigitsCore cs (c.toNat - 48) else none

/-- The Python function int applied to a string: strip whitespace, accept
an optional sign followed by an underscore-separated digit run. The value
none models a ValueError being raised. -/
def pyInt (s : String) : Option Int :=
  match ((s.toList.dropWhile isPySpace).reverse.dropWhile isPySpace).reverse with
  | '+' :: rest => (pyDigits rest).map Int.ofNat
  | '-' :: rest => (pyDigits rest).map (fun n => -(n : Int))
  | rest => (pyDigits rest).map Int.ofNat

/-- The collaborators and process-wide configuration one invocation reads:
the process environment (os.environ) and the Tavily client search call,
taking the api key the client was constructed with, the query, and the
search depth. -/
structure SearchWorld where
  env : String → Option String
  search : String → String → String → Except SearchFailure PyValue

/-- One invocation of `Assistant.search_web` from `src/agent.py`:
look up TAVILY_API_KEY (KeyError when absent), issue one search at depth
"advanced" (propagating its failure), print the response, read
TAVILY_SEARCH_DELAY, and when it is set and non-empty convert it with the
Python function int (ValueError when unparseable) and sleep that many
seconds; finally return the raw response. The first component is the
ordered trace of side effects, the second the returned value or the
exception propagated. -/
def search_web (w : SearchWorld) (query : String) :
    List Event × Except PyError PyValue :=
  match w.env "TAVILY_API_KEY" with
  | none => ([], .error (.keyError "TAVILY_API_KEY"))
  | some apiKey =>
    match w.search apiKey query "advanced" with
    | .error e =>
        ([.searchRequest apiKey query "advanced"], .error (.searchError e))
    | .ok response =>
        match w.env "TAVILY_SEARCH_DELAY" with
        | none =>
            ([.searchRequest apiKey query "advanced", .printOut response],
             .ok response)
        | some delay =>
            if delay = "" then
              ([.searchRequest apiKey query "advanced", .printOut response],
               .ok response)
            else
              match pyInt delay with
              | some n =>
                  ([.searchRequest apiKey query "advanced",
                    .printOut response, .sleep n], .ok response)
              | none =>
                  ([.searchRequest apiKey query "advanced",
                    .printOut response], .error (.valueError delay))

/-- The return type annotation the source declares for search_web. -/
def search_web_declared_return : String := "str"

/-- The search requests contained in a trace, in order, as triples of api
key, query, and depth. -/
def searchRequests : List Event → List (String × String × String)
  | [] => []
  | .searchRequest k q d :: es => (k, q, d) :: searchRequests es
  | .printOut _ :: es => searchRequests es
  | .sleep _ :: es => searchRequests es

/-- The sleeps contained in a trace, in order, as durations in seconds. -/
def sleeps : List Event → List Int
  | [] => []
  | .sleep n :: es => n :: sleeps es
  | .searchRequest _ _ _ :: es => sleeps es
  | .printOut _ :: es => sleeps es

/-- Inversion helper: whenever an invocation returns a value, the api key
was present and the value is exactly the search client response for this
invocation's query at depth "advanced". -/
theorem search_web_ok_inv (w : SearchWorld) (q : String) (v : PyValue)
    (hret : (search_web w q).2 = .ok v) :
    ∃ k, w.env "TAVILY_API_KEY" = some k ∧ w.search k q "advanced" = .ok v := by
  unfold search_web at hret
  split at hret
  · simp at hret
  next k hk =>
    split at hret
    next e hs => simp at hret
    next r hs =>
      refine ⟨k, hk, ?_⟩
      split at hret
      · simp at hret; rw [← hret]; exact hs
      next d hd =>
        by_cases hde : d = ""
        · rw [if_pos hde] at hret; simp at hret; rw [← hret]; exact hs
        · rw [if_neg hde] at hret
          split at hret
          next n hp => simp at hret; rw [← hret]; exact hs
          next hp => simp at hret

/-- Path helper: when TAVILY_API_KEY is absent the invocation raises
KeyError with an empty trace. -/
theorem search_web_key_none (w : SearchWorld) (q : String)
    (hk : w.env "TAVILY_API_KEY" = none) :
    search_web w q = ([], .error (.keyError "TAVILY_API_KEY")) := by
  simp only [search_web, hk]

/-- Path helper: when the search call fails, the invocation stops with the
search failure wrapped as the propagated exception. -/
theorem search_web_search_err (w : SearchWorld) (q k : String)
    (e : SearchFailure) (hk : w.env "TAVILY_API_KEY" = some k)
    (hs : w.search k q "advanced" = .error e) :
    search_web w q =
      ([.searchRequest k q "advanced"], .error (.searchError e)) := by
  simp only [search_web, hk, hs]

/-- Path helper: search succeeds and TAVILY_SEARCH_DELAY is unset. -/
theorem search_web_delay_none (w : SearchWorld) (q k : String) (r : PyValue)
    (hk : w.env "TAVILY_API_KEY" = some k)
    (hs : w.search k q "advanced" = .ok r)
    (hd : w.env "TAVILY_SEARCH_DELAY" = none) :
    search_web w q =
      ([.searchRequest k q "advanced", .printOut r], .ok r) := by
  simp only [search_web, hk, hs, hd]

/-- Path helper: search succeeds and TAVILY_SEARCH_DELAY is the empty
string, which Python treats as falsy. -/
theorem search_web_delay_empty (w : SearchWorld) (q k : String) (r : PyValue)
    (hk : w.env "TAVILY_API_KEY" = some k)
    (hs : w.search k q "advanced" = .ok r)
    (hd : w.env "TAVILY_SEARCH_DELAY" = some "") :
    search_web w q =
      ([.searchRequest k q "advanced", .printOut r], .ok r) := by
  simp [search_web, hk, hs, hd]

/-- Path helper: search succeeds and TAVILY_SEARCH_DELAY parses to n. -/
theorem search_web_delay_parsed (w : SearchWorld) (q k d : String)
    (r : PyValue) (n : Int) (hk : w.env "TAVILY_API_KEY" = some k)
    (hs : w.search k q "advanced" = .ok r)
    (hd : w.env "TAVILY_SEARCH_DELAY" = some d) (hde : d ≠ "")
    (hp : pyInt d = some n) :
    search_web w q =
      ([.searchRequest k q "advanced", .printOut r, .sleep n], .ok r) := by
  simp only [search_web, hk, hs, hd, if_neg hde, hp]

/-- Path helper: search succeeds and TAVILY_SEARCH_DELAY is non-empty but
does not parse as an integer, so the conversion raises ValueError. -/
theorem search_web_delay_bad (w : SearchWorld) (q k d : String) (r : PyValue)
    (hk : w.env "TAVILY_API_KEY" = some k)
    (hs : w.search k q "advanced" = .ok r)
    (hd : w.env "TAVILY_SEARCH_DELAY" = some d) (hde : d ≠ "")
    (hp : pyInt d = none) :
    search_web w q =
      ([.searchRequest k q "advanced", .printOut r],
       .error (.valueError d)) := by
  simp only [search_web, hk, hs, hd, if_neg hde, hp]

/-- A sample structured response as the Tavily client produces. -/
def sampleResult : PyValue :=
  .dict [("query", .str "bangkok"), ("answer", .str "sunny")]

/-- A search client behavior that always succeeds with sampleResult. -/
def okSearch : String → String → String → Except SearchFailure PyValue :=
  fun _ _ _ => .ok sampleResult

/-- An environment holding only the api key. -/
def envNoDelay : String → Option String := fun v =>
  if v = "TAVILY_API_KEY" then some "tvly-key" else none

/-- An environment holding the api key and a delay setting of 3 seconds. -/
def envDelay3 : String → Option String := fun v =>
  if v = "TAVILY_API_KEY" then some "tvly-key"
  else if v = "TAVILY_SEARCH_DELAY" then some "3" else none

/-- An environment holding the api key and an empty delay setting. -/
def envEmptyDelay : String → Option String := fun v =>
  if v = "TAVILY_API_KEY" then some "tvly-key"
  else if v = "TAVILY_SEARCH_DELAY" then some "" else none

/-- An environment holding the api key and an unparseable delay setting. -/
def envBadDelay : String → Option String := fun v =>
  if v = "TAVILY_API_KEY" then some "tvly-key"
  else if v = "TAVILY_SEARCH_DELAY" then some "three seconds" else none

/-- A world with the key configured and no delay setting. -/
def wNoDelay : SearchWorld := ⟨envNoDelay, okSearch⟩

/-- A world with the key configured and delay setting "3". -/
def wDelay3 : SearchWorld := ⟨envDelay3, okSearch⟩

/-- A world with the key configured and delay setting "". -/
def wEmptyDelay : SearchWorld := ⟨envEmptyDelay, okSearch⟩

/-- A world with the key configured and an unparseable delay setting. -/
def wBadDelay : SearchWorld := ⟨envBadDelay, okSearch⟩

/-- A world with no environment variables configured at all. -/
def wNoKey : SearchWorld := ⟨fun _ => none, okSearch⟩

/-- A world whose search client rejects the credential. -/
def wFailing : SearchWorld :=
  ⟨envNoDelay, fun _ _ _ => .error (.auth "invalid api key")⟩

/-- A world differing from wNoDelay in its behavior on other queries. -/
def wAlt : SearchWorld :=
  ⟨envNoDelay, fun _ q _ =>
    if q = "bangkok" then .ok sampleResult else .error (.network "offline")⟩

/-- C1: for every non-empty query, one invocation issues exactly one
outbound search request, carrying that query and the fixed depth
"advanced", and no path through the handler issues a second one (given the
credential is configured; without it the environment lookup raises before
any request is issued, see the theorem for C7). -/
theorem search_web_exactly_one_request (w : SearchWorld) (q k : String)
    (hq : q ≠ "") (hk : w.env "TAVILY_API_KEY" = some k) :
    searchRequests (search_web w q).1 = [(k, q, "advanced")] := by
  cases hs : w.search k q "advanced" with
  | error e => rw [search_web_search_err w q k e hk hs]; rfl
  | ok r =>
    cases hd : w.env "TAVILY_SEARCH_DELAY" with
    | none => rw [search_web_delay_none w q k r hk hs hd]; rfl
    | some d =>
      by_cases hde : d = ""
      · subst hde; rw [search_web_delay_empty w q k r hk hs hd]; rfl
      · cases hp : pyInt d with
        | some n => rw [search_web_delay_parsed w q k d r n hk hs hd hde hp]; rfl
        | none => rw [search_web_delay_bad w q k d r hk hs hd hde hp]; rfl

/-- Witness for C1 at a concrete world and query. -/
theorem search_web_exactly_one_request_witness :
    searchRequests (search_web wNoDelay "bangkok").1 =
      [("tvly-key", "bangkok", "advanced")] :=
  search_web_exactly_one_request wNoDelay "bangkok" "tvly-key"
    (by decide) rfl

/-- C2: whenever the search client call succeeds and the invocation
returns a value, that value is exactly the structured result the client
produced, with nothing added, removed, translated, or serialized. -/
theorem search_web_returns_raw_result (w : SearchWorld) (q k : String)
    (r v : PyValue) (hk : w.env "TAVILY_API_KEY" = some k)
    (hs : w.search k q "advanced" = .ok r)
    (hret : (search_web w q).2 = .ok v) : v = r := by
  obtain ⟨k2, hk2, hs2⟩ := search_web_ok_inv w q v hret
  rw [hk] at hk2
  injection hk2 with hkk
  subst hkk
  rw [hs] at hs2
  injection hs2 with h
  exact h.symm

/-- Witness for C2 at a concrete world and query. -/
theorem search_web_returns_raw_result_witness : sampleResult = sampleResult :=
  search_web_returns_raw_result wNoDelay "bangkok" "tvly-key"
    sampleResult sampleResult rfl rfl rfl

/-- C3: when the delay setting is present and parses as a non-negative
integer n, the invocation performs exactly one sleep, of exactly n
seconds, after the search request completes and before returning; the
whole trace of the invocation is fixed by its own inputs, so repeated
invocations each perform their own single n-second sleep and no delay
carries over between invocations. -/
theorem search_web_delay_exact (w : SearchWorld) (q k d : String)
    (r : PyValue) (n : Int) (hk : w.env "TAVILY_API_KEY" = some k)
    (hs : w.search k q "advanced" = .ok r)
    (hd : w.env "TAVILY_SEARCH_DELAY" = some d)
    (hp : pyInt d = some n) (hn : 0 ≤ n) :
    search_web w q =
      ([.searchRequest k q "advanced", .printOut r, .sleep n], .ok r) := by
  have hde : d ≠ "" := by
    intro h
    have h0 : pyInt "" = none := rfl
    rw [h, h0] at hp
    exact Option.noConfusion hp
  exact search_web_delay_parsed w q k d r n hk hs hd hde hp

/-- Witness for C3 at a concrete world with delay setting "3". -/
theorem search_web_delay_exact_witness :
    search_web wDelay3 "bangkok" =
      ([.searchRequest "tvly-key" "bangkok" "advanced",
        .printOut sampleResult, .sleep 3], .ok sampleResult) :=
  search_web_delay_exact wDelay3 "bangkok" "tvly-key" "3"
    sampleResult 3 rfl rfl rfl rfl (by decide)

/-- C4: when the delay setting is absent the invocation performs no sleep
at all, on any path, so it returns as soon as the search completes. -/
theorem search_web_no_sleep_when_delay_absent (w : SearchWorld) (q : String)
    (hd : w.env "TAVILY_SEARCH_DELAY" = none) :
    sleeps (search_web w q).1 = [] := by
  cases hk : w.env "TAVILY_API_KEY" with
  | none => rw [search_web_key_none w q hk]; rfl
  | some k =>
    cases hs : w.search k q "advanced" with
    | error e => rw [search_web_search_err w q k e hk hs]; rfl
    | ok r => rw [search_web_delay_none w q k r hk hs hd]; rfl

/-- Witness for C4 at a concrete world without the delay setting. -/
theorem search_web_no_sleep_when_delay_absent_witness :
    sleeps (search_web wNoDelay "bangkok").1 = [] :=
  search_web_no_sleep_when_delay_absent wNoDelay "bangkok" rfl

/-- C5: when the search client fails, the invocation fails with that same
failure, unmodified; exactly one search request was issued (no retry) and
no fallback value is returned. -/
theorem search_web_failure_propagates (w : SearchWorld) (q k : String)
    (e : SearchFailure) (hk : w.env "TAVILY_API_KEY" = some k)
    (hs : w.search k q "advanced" = .error e) :
    search_web w q =
      ([.searchRequest k q "advanced"], .error (.searchError e)) :=
  search_web_search_err w q k e hk hs

/-- Witness for C5 at a concrete world whose client rejects the key. -/
theorem search_web_failure_propagates_witness :
    search_web wFailing "bangkok" =
      ([.searchRequest "tvly-key" "bangkok" "advanced"],
       .error (.searchError (.auth "invalid api key"))) :=
  search_web_failure_propagates wFailing "bangkok" "tvly-key"
    (.auth "invalid api key") rfl rfl

/-- Counterexample for C6 as stated: with the delay setting present but
unparseable ("three seconds") and the search succeeding, the invocation
does not skip the delay silently and complete normally; the int conversion
raises ValueError and the invocation fails. -/
theorem search_web_unparseable_delay_refuted :
    (search_web wBadDelay "bangkok").2 =
      .error (.valueError "three seconds") := rfl

/-- C6 amended: when the delay setting is present, non-empty and not
parseable as an integer, the int conversion raises ValueError and the
invocation fails with it after the search succeeded; no sleep occurs. -/
theorem search_web_unparseable_delay_raises (w : SearchWorld)
    (q k d : String) (r : PyValue) (hk : w.env "TAVILY_API_KEY" = some k)
    (hs : w.search k q "advanced" = .ok r)
    (hd : w.env "TAVILY_SEARCH_DELAY" = some d) (hde : d ≠ "")
    (hp : pyInt d = none) :
    search_web w q =
      ([.searchRequest k q "advanced", .printOut r],
       .error (.valueError d)) :=
  search_web_delay_bad w q k d r hk hs hd hde hp

/-- Witness for the amended C6 at a concrete world. -/
theorem search_web_unparseable_delay_raises_witness :
    search_web wBadDelay "bangkok" =
      ([.searchRequest "tvly-key" "bangkok" "advanced",
        .printOut sampleResult],
       .error (.valueError "three seconds")) :=
  search_web_unparseable_delay_raises wBadDelay "bangkok" "tvly-key"
    "three seconds" sampleResult rfl rfl rfl (by decide) rfl

/-- C7: when the search api credential is absent from the environment the
invocation fails immediately at the environment lookup, before the client
is constructed, and the trace is empty: no search request is issued. -/
theorem search_web_missing_credential_no_request (w : SearchWorld)
    (q : String) (hk : w.env "TAVILY_API_KEY" = none) :
    search_web w q = ([], .error (.keyError "TAVILY_API_KEY")) :=
  search_web_key_none w q hk

/-- Witness for C7 at a concrete world with an empty environment. -/
theorem search_web_missing_credential_no_request_witness :
    search_web wNoKey "bangkok" =
      ([], .error (.keyError "TAVILY_API_KEY")) :=
  search_web_missing_credential_no_request wNoKey "bangkok" rfl

/-- C8: the handler holds no state shared between invocations; the whole
outcome of an invocation is determined by the credential setting, the
delay setting, and the search client response to that invocation's own
query at depth "advanced". Two worlds agreeing on exactly those three
points produce identical traces and results, so results cannot leak
between invocations with different queries. -/
theorem search_web_noninterference (w1 w2 : SearchWorld) (q : String)
    (hk : w1.env "TAVILY_API_KEY" = w2.env "TAVILY_API_KEY")
    (hd : w1.env "TAVILY_SEARCH_DELAY" = w2.env "TAVILY_SEARCH_DELAY")
    (hs : ∀ k, w1.env "TAVILY_API_KEY" = some k →
        w1.search k q "advanced" = w2.search k q "advanced") :
    search_web w1 q = search_web w2 q := by
  cases hk1 : w1.env "TAVILY_API_KEY" with
  | none =>
    have hk2 : w2.env "TAVILY_API_KEY" = none := by rw [← hk]; exact hk1
    rw [search_web_key_none w1 q hk1, search_web_key_none w2 q hk2]
  | some k =>
    have hk2 : w2.env "TAVILY_API_KEY" = some k := by rw [← hk]; exact hk1
    cases hs1 : w1.search k q "advanced" with
    | error e =>
      have hs2 : w2.search k q "advanced" = .error e := by
        rw [← hs k hk1]; exact hs1
      rw [search_web_search_err w1 q k e hk1 hs1,
        search_web_search_err w2 q k e hk2 hs2]
    | ok r =>
      have hs2 : w2.search k q "advanced" = .ok r := by
        rw [← hs k hk1]; exact hs1
      cases hd1 : w1.env "TAVILY_SEARCH_DELAY" with
      | none =>
        have hd2 : w2.env "TAVILY_SEARCH_DELAY" = none := by
          rw [← hd]; exact hd1
        rw [search_web_delay_none w1 q k r hk1 hs1 hd1,
          search_web_delay_none w2 q k r hk2 hs2 hd2]
      | some d =>
        have hd2 : w2.env "TAVILY_SEARCH_DELAY" = some d := by
          rw [← hd]; exact hd1
        by_cases hde : d = ""
        · subst hde
          rw [search_web_delay_empty w1 q k r hk1 hs1 hd1,
            search_web_delay_empty w2 q k r hk2 hs2 hd2]
        · cases hp : pyInt d with
          | some n =>
            rw [search_web_delay_parsed w1 q k d r n hk1 hs1 hd1 hde hp,
              search_web_delay_parsed w2 q k d r n hk2 hs2 hd2 hde hp]
          | none =>
            rw [search_web_delay_bad w1 q k d r hk1 hs1 hd1 hde hp,
              search_web_delay_bad w2 q k d r hk2 hs2 hd2 hde hp]

/-- Witness for C8: two worlds whose clients differ on every query other
than the one invoked produce the same invocation outcome. -/
theorem search_web_noninterference_witness :
    search_web wNoDelay "bangkok" = search_web wAlt "bangkok" :=
  search_web_noninterference wNoDelay wAlt "bangkok" rfl rfl
    (fun _ _ => rfl)

/-- The same world with the TAVILY_SEARCH_DELAY variable removed from the
environment; everything else is unchanged. -/
def removeDelay (w : SearchWorld) : SearchWorld :=
  ⟨fun v => if v = "TAVILY_SEARCH_DELAY" then none else w.env v, w.search⟩

/-- Removing the delay variable leaves the api key lookup unchanged. -/
theorem removeDelay_key (w : SearchWorld) :
    (removeDelay w).env "TAVILY_API_KEY" = w.env "TAVILY_API_KEY" := by
  simp only [removeDelay]
  rw [if_neg (by decide)]

/-- Removing the delay variable makes its lookup return none. -/
theorem removeDelay_delay (w : SearchWorld) :
    (removeDelay w).env "TAVILY_SEARCH_DELAY" = none := by
  simp [removeDelay]

/-- C9: an empty delay setting behaves exactly as an absent one; the
invocation in a world with TAVILY_SEARCH_DELAY set to the empty string
equals the invocation in the same world with that variable removed, so no
parse is attempted, no error raised, and no sleep performed. -/
theorem search_web_empty_delay_as_absent (w : SearchWorld) (q : String)
    (hd : w.env "TAVILY_SEARCH_DELAY" = some "") :
    search_web w q = search_web (removeDelay w) q := by
  cases hk : w.env "TAVILY_API_KEY" with
  | none =>
    have hk2 : (removeDelay w).env "TAVILY_API_KEY" = none := by
      rw [removeDelay_key]; exact hk
    rw [search_web_key_none w q hk, search_web_key_none _ q hk2]
  | some k =>
    have hk2 : (removeDelay w).env "TAVILY_API_KEY" = some k := by
      rw [removeDelay_key]; exact hk
    cases hs : w.search k q "advanced" with
    | error e =>
      have hs2 : (removeDelay w).search k q "advanced" = .error e := hs
      rw [search_web_search_err w q k e hk hs,
        search_web_search_err _ q k e hk2 hs2]
    | ok r =>
      have hs2 : (removeDelay w).search k q "advanced" = .ok r := hs
      rw [search_web_delay_empty w q k r hk hs hd,
        search_web_delay_none _ q k r hk2 hs2 (removeDelay_delay w)]

/-- Witness for C9 at a concrete world with an empty delay setting. -/
theorem search_web_empty_delay_as_absent_witness :
    search_web wEmptyDelay "bangkok" =
      search_web (removeDelay wEmptyDelay) "bangkok" :=
  search_web_empty_delay_as_absent wEmptyDelay "bangkok" rfl

/-- C10: the source annotates search_web as returning str, yet every value
an invocation actually returns is the search client's own structured
payload, unconverted; in particular when the client produced a dictionary
the returned value is that dictionary and not a string. -/
theorem search_web_declared_str_returns_structured (w : SearchWorld)
    (q : String) (v : PyValue) (hret : (search_web w q).2 = .ok v) :
    search_web_declared_return = "str" ∧
    (∃ k, w.env "TAVILY_API_KEY" = some k ∧
      w.search k q "advanced" = .ok v) ∧
    ∀ entries, v = PyValue.dict entries → ∀ s, v ≠ PyValue.str s := by
  refine ⟨rfl, search_web_ok_inv w q v hret, ?_⟩
  rintro entries hv s hcontra
  rw [hv] at hcontra
  exact PyValue.noConfusion hcontra

/-- Witness for C10 at a concrete world returning a dictionary. -/
theorem search_web_declared_str_returns_structured_witness :
    search_web_declared_return = "str" ∧
    (∃ k, wNoDelay.env "TAVILY_API_KEY" = some k ∧
      wNoDelay.search k "bangkok" "advanced" = .ok sampleResult) ∧
    ∀ entries, sampleResult = PyValue.dict entries →
      ∀ s, sampleResult ≠ PyValue.str s :=
  search_web_declared_str_returns_structured wNoDelay "bangkok"
    sampleResult rfl
